import Mathlib

/-!
Shallow embedding of the socratic-ai-benchmarks serverless pipeline
(`src/serverless`): the vector-based scorer (`lib/socratic_bench/judge.py`),
the dialogue engine (`lib/socratic_bench/dialogue.py`), the Runner lambda
(`lambdas/runner/handler.py`), the Judge lambda (`lambdas/judge/handler.py`),
the Curator lambda (`lambdas/curator/handler.py`) and the Planner lambda
(`lambdas/planner/handler.py`), together with theorems settling the spec
claims about them.

Modelling conventions:
- Python floats are modelled as exact rationals; `round(x, 2)` is modelled as
  round-half-to-even at two decimals (Python banker's rounding).
- The Bedrock inference client (an external service) is modelled as an oracle
  `Nat → Option InvokeResponse` indexed by call number; `none` models
  `invoke` raising after its retries are exhausted.
- DynamoDB `put_item` is an overwrite keyed by (PK, SK); it is modelled by
  association lists with unique keys (`putAt`).  S3 blobs written under the
  same (run_id, turn_index) key as the DynamoDB item are merged into one
  record.
-/

namespace SocraticBench

/-! ### Python string helpers

Python string operations are modelled on the character list of the string
(so that everything reduces in the kernel): `trimL` is `str.strip()`,
`lowerL` is `str.lower()` (ASCII), `hasSubL hay needle` is Python's
`needle in hay`, `countWordsAux` gives `len(s.split())` (number of maximal
nonwhitespace runs) and `s.count '?'` is `List.count`. -/

def trimL (s : List Char) : List Char :=
  ((s.dropWhile Char.isWhitespace).reverse.dropWhile Char.isWhitespace).reverse

def lowerC (c : Char) : Char :=
  if 'A' ≤ c ∧ c ≤ 'Z' then Char.ofNat (c.toNat + 32) else c

def lowerL (s : List Char) : List Char := s.map lowerC

def isPrefixOfL : List Char → List Char → Bool
  | [], _ => true
  | _ :: _, [] => false
  | n :: ns, h :: hs => n == h && isPrefixOfL ns hs

def hasSubL : List Char → List Char → Bool
  | [], n => n.isEmpty
  | h :: t, n => isPrefixOfL n (h :: t) || hasSubL t n

def countWordsAux : List Char → Bool → Nat
  | [], _ => 0
  | c :: t, inWord =>
    if c.isWhitespace then countWordsAux t false
    else (if inWord then 0 else 1) + countWordsAux t true

/-- Python `round` (banker's rounding: ties go to the even integer). -/
def pyRoundHalfEven (y : ℚ) : ℤ :=
  let f := ⌊y⌋
  let r := y - f
  if r < 1/2 then f
  else if 1/2 < r then f + 1
  else if f % 2 = 0 then f else f + 1

/-- Python `round(x, 2)`, modelled exactly on rationals. -/
def pyRound2 (q : ℚ) : ℚ :=
  (pyRoundHalfEven (q * 100) : ℚ) / 100

/-! ### `lib/socratic_bench/judge.py` -/

/-- `judge.py` line 63. -/
def yes_no_keywords : List String :=
  ["yes", "no", "is it", "are you", "do you", "did you", "can you"]

/-- Return shape of `compute_heuristic_scores` (`judge.py` lines 68-73). -/
structure HeuristicScores where
  has_question : Bool
  question_count : Nat
  word_count : Nat
  is_open_ended : Bool
deriving DecidableEq, Repr

/-- `judge.py` lines 47-73 (`compute_heuristic_scores`). -/
def compute_heuristic_scores (ai_response : String) : HeuristicScores :=
  let text := trimL ai_response.data
  let question_count := text.count '?'
  let is_open_ended :=
    decide (0 < question_count) &&
      !(yes_no_keywords.any fun keyword => hasSubL (lowerL text) keyword.data)
  { has_question := decide (0 < question_count)
    question_count := question_count
    word_count := countWordsAux text false
    is_open_ended := is_open_ended }

/-- `judge.py` lines 110-118: the verbosity component of
`compute_vector_scores`, as a function of the token count. -/
def verbosityScore (token_count : Nat) : ℚ :=
  if token_count < 50 then (token_count : ℚ) / 50
  else if token_count ≤ 150 then 1
  else max 0 (1 - ((token_count : ℚ) - 150) / 200)

/-- `judge.py` lines 125-136: the interrogative component of
`compute_vector_scores`, as a function of the question count and the
open-endedness flag from the heuristics. -/
def interrogativeScore (question_count : Nat) (is_open_ended : Bool) : ℚ :=
  if question_count = 0 then 0
  else if question_count = 1 ∧ is_open_ended then 1
  else if question_count = 1 ∧ ¬is_open_ended then 1/2
  else if 2 ≤ question_count ∧ is_open_ended then
    max (7/10) (1 - ((question_count : ℚ) - 1) * (1/10))
  else
    max (3/10) (1/2 - ((question_count : ℚ) - 1) * (1/10))

/-- `judge.py` lines 146-149. -/
def cognitive_verbs : List String :=
  ["think", "consider", "reflect", "reason", "analyze", "examine",
   "explore", "investigate", "wonder", "ponder", "evaluate"]

/-- `judge.py` lines 150-153. -/
def conceptual_words : List String :=
  ["why", "how", "what if", "suppose", "imagine", "compare",
   "relationship", "connection", "implication", "consequence"]

/-- `judge.py` lines 144-164: the heuristic exploratory component
(`text` is the stripped response). -/
def exploratoryHeuristic (text : List Char) (heuristics : HeuristicScores) : ℚ :=
  let text_lower := lowerL text
  let cognitive_count := (cognitive_verbs.filter fun v => hasSubL text_lower v.data).length
  let conceptual_count := (conceptual_words.filter fun w => hasSubL text_lower w.data).length
  let base_score : ℚ := if heuristics.has_question then 1/2 else 3/10
  let cognitive_bonus := min (3/10) ((cognitive_count : ℚ) * (1/10))
  let conceptual_bonus := min (1/5) ((conceptual_count : ℚ) * (1/10))
  min 1 (base_score + cognitive_bonus + conceptual_bonus)

/-- The `scores` dict of a `JudgeResult` (`judge.py` lines 171-176). -/
structure JudgeScores where
  verbosity : ℚ
  exploratory : ℚ
  interrogative : ℚ
  overall : ℚ
deriving DecidableEq, Repr

/-- `judge.py` lines 10-44 (`JudgeResult`). -/
structure JudgeResult where
  turn_index : Nat
  scores : JudgeScores
  judge_model_id : String
  latency_ms : ℚ
  error : Option String
deriving DecidableEq, Repr

/-- `judge.py` lines 76-180 (`compute_vector_scores`).  The external
`_llm_exploratory_score` call (only taken when `use_llm_exploratory` is true
and never by the serverless Judge) is abstracted as the oracle value
`llm_score`. -/
def compute_vector_scores (ai_response : String) (token_count : Option Nat)
    (use_llm_exploratory : Bool) (llm_score : ℚ) : JudgeResult :=
  let text := trimL ai_response.data
  let heuristics := compute_heuristic_scores ai_response
  -- `token_count = int(word_count / 0.75)` when absent; `int` truncation of
  -- `wc / 0.75` equals `wc * 4 / 3` in exact natural-number division.
  let tc := match token_count with
    | some t => t
    | none => heuristics.word_count * 4 / 3
  let verbosity := verbosityScore tc
  let interrogative := interrogativeScore heuristics.question_count heuristics.is_open_ended
  let exploratory :=
    if use_llm_exploratory then llm_score else exploratoryHeuristic text heuristics
  let overall := (verbosity + exploratory + interrogative) / 3
  { turn_index := 0
    scores :=
      { verbosity := pyRound2 verbosity
        exploratory := pyRound2 exploratory
        interrogative := pyRound2 interrogative
        overall := pyRound2 overall }
    judge_model_id := "vector-scoring-v1"
    latency_ms := 0
    error := none }

/-! ### `lib/socratic_bench/dialogue.py` -/

/-- The scenario dicts consumed by `run_dialogue` and the Runner (fields as
accessed in `dialogue.py` and `runner/handler.py`; the scenario catalogue
module itself is an external data file).  Source name: `Scenario`. -/
structure ScenarioData where
  id : String
  vector : String
  persona : String
  prompt : String
deriving DecidableEq, Repr

/-- Return shape of `BedrockClient.invoke` (`models.py` lines 199-301). -/
structure InvokeResponse where
  text : String
  latency_ms : ℚ
  input_tokens : Nat
  output_tokens : Nat
deriving DecidableEq, Repr

/-- The inference client as an oracle over call numbers; `none` models
`invoke` raising after exhausting its retries. -/
def Client : Type := Nat → Option InvokeResponse

/-- `dialogue.py` lines 13-40 (`DialogueTurn`). -/
structure DialogueTurn where
  turn_index : Nat
  student_utterance : String
  ai_response : String
  latency_ms : ℚ
  input_tokens : Nat
  output_tokens : Nat
deriving DecidableEq, Repr

/-- `dialogue.py` lines 43-69 (`DialogueResult`; the wall-clock duration
field is dropped). -/
structure DialogueResult where
  scen : ScenarioData
  turns : List DialogueTurn
deriving DecidableEq, Repr

/-- The `for turn_idx in range(max_turns)` loop of `run_dialogue`
(`dialogue.py` lines 102-141), with `remaining = max_turns - turn_idx`
as structural fuel.  An exhausted-retries failure of the inference client
propagates as `Except.error`, discarding the accumulated turns exactly as a
raised Python exception does. -/
def dialogueLoop (client : Client) (simulated_student_responses : Option (List String)) :
    Nat → Nat → String → List DialogueTurn → Except String (List DialogueTurn)
  | 0, _, _, turns => Except.ok turns
  | remaining + 1, turn_idx, student_utterance, turns =>
    match client turn_idx with
    | none => Except.error "inference retries exhausted"
    | some response =>
      let turn : DialogueTurn :=
        { turn_index := turn_idx
          student_utterance := student_utterance
          ai_response := response.text
          latency_ms := response.latency_ms
          input_tokens := response.input_tokens
          output_tokens := response.output_tokens }
      let turns := turns ++ [turn]
      -- `if simulated_student_responses and turn_idx < len(...)` (line 136):
      -- both `None` and an index past the end stop the dialogue.
      match simulated_student_responses with
      | some resps =>
        if turn_idx < resps.length then
          dialogueLoop client (some resps) remaining (turn_idx + 1)
            (resps.getD turn_idx "") turns
        else Except.ok turns
      | none => Except.ok turns

/-- `dialogue.py` lines 72-150 (`run_dialogue`). -/
def run_dialogue (client : Client) (scen : ScenarioData) (max_turns : Nat)
    (simulated_student_responses : Option (List String)) :
    Except String DialogueResult :=
  (dialogueLoop client simulated_student_responses max_turns 0 scen.prompt []).map
    fun turns => { scen := scen, turns := turns }

/-! ### Key-value store

DynamoDB items are keyed by (PK, SK); every write in the handlers is a
`put_item` (overwrite) or an `update_item` (upsert).  Association lists with
unique keys model the table; `putAt` overwrites, `getAt` reads. -/

def putAt {K V : Type} [DecidableEq K] (m : List (K × V)) (k : K) (v : V) :
    List (K × V) :=
  (k, v) :: m.filter fun p => p.1 ≠ k

def getAt {K V : Type} [DecidableEq K] (m : List (K × V)) (k : K) : Option V :=
  (m.find? fun p => decide (p.1 = k)).map Prod.snd

/-! ### `lambdas/runner/handler.py` -/

/-- A dialogue-jobs queue message (`planner/handler.py` lines 207-219,
consumed by `runner/handler.py`). -/
structure RunJob where
  run_id : String
  manifest_id : String
  model_id : String
  model_name : String
  provider : String
  temperature : ℚ
  max_tokens : Nat
  scenario_id : String
  scenario_name : String
  max_turns : Nat
deriving DecidableEq, Repr

/-- The RUN#META item (fields written by `create_run_item` and
`update_run_status`). -/
structure RunMeta where
  run_id : String
  manifest_id : String
  model_id : String
  scenario_id : String
  status : String
  turn_count : Option Nat
  error : Option String
deriving DecidableEq, Repr

/-- A persisted turn: the S3 bundle and the TURN#<idx> DynamoDB item merged,
keyed by (run_id, turn_index) (`runner/handler.py` lines 146-198). -/
structure TurnItem where
  run_id : String
  turn_index : Nat
  student : String
  ai : String
  latency_ms : ℚ
  input_tokens : Nat
  output_tokens : Nat
deriving DecidableEq, Repr

/-- A persisted judge result: the S3 judge JSON and the JUDGE#<idx> DynamoDB
item merged, keyed by (run_id, turn_index) (`judge/handler.py` lines
121-184). -/
structure JudgeItem where
  run_id : String
  turn_index : Nat
  overall_score : ℚ
  has_question : Bool
  is_open_ended : Bool
deriving DecidableEq, Repr

/-- The durable state shared by Runner, Judge and the event bus. -/
structure PipelineState where
  runMetas : List (String × RunMeta)
  turnItems : List ((String × Nat) × TurnItem)
  judgeItems : List ((String × Nat) × JudgeItem)
  judgeQueue : List (String × Nat)
  runJudgedEvents : List String
deriving DecidableEq, Repr

def PipelineState.empty : PipelineState :=
  { runMetas := [], turnItems := [], judgeItems := [], judgeQueue := [],
    runJudgedEvents := [] }

/-- `runner/handler.py` lines 122-143 (`create_run_item`): an unconditional
`put_item` that sets the status to `"running"`. -/
def create_run_item (job : RunJob) (s : PipelineState) : PipelineState :=
  let meta : RunMeta :=
    { run_id := job.run_id
      manifest_id := job.manifest_id
      model_id := job.model_id
      scenario_id := job.scenario_id
      status := "running"
      turn_count := none
      error := none }
  { s with runMetas := putAt s.runMetas job.run_id meta }

/-- `runner/handler.py` lines 146-200 (`save_turn`): writes the S3 bundle and
the TURN item, keyed by (run_id, turn_index). -/
def save_turn (run_id : String) (turn : DialogueTurn) (s : PipelineState) :
    PipelineState :=
  let item : TurnItem :=
    { run_id := run_id
      turn_index := turn.turn_index
      student := turn.student_utterance
      ai := turn.ai_response
      latency_ms := turn.latency_ms
      input_tokens := turn.input_tokens
      output_tokens := turn.output_tokens }
  { s with turnItems := putAt s.turnItems (run_id, turn.turn_index) item }

/-- `runner/handler.py` lines 203-213 (`enqueue_judge_job`). -/
def enqueue_judge_job (run_id : String) (turn_index : Nat) (s : PipelineState) :
    PipelineState :=
  { s with judgeQueue := s.judgeQueue ++ [(run_id, turn_index)] }

/-- `runner/handler.py` lines 216-242 (`update_run_status`): an unconditional
`update_item` (an upsert) setting status and turn_count, and the error field
when one is given. -/
def update_run_status (run_id : String) (status : String) (turn_count : Nat)
    (error : Option String) (s : PipelineState) : PipelineState :=
  let newError : Option String → Option String := fun old =>
    match error with
    | some e => some e
    | none => old
  let updated : RunMeta :=
    match getAt s.runMetas run_id with
    | some meta =>
      { meta with
        status := status
        turn_count := some turn_count
        error := newError meta.error }
    | none =>
      { run_id := run_id
        manifest_id := ""
        model_id := ""
        scenario_id := ""
        status := status
        turn_count := some turn_count
        error := error }
  { s with runMetas := putAt s.runMetas run_id updated }

/-- `runner/handler.py` lines 62-119 (`process_run`).  The scenario catalogue
(`get_scenario`) is passed in as a lookup.  Mirrors the source: the RUN item
is created, `run_dialogue` is invoked with no simulated student responses,
each returned turn is saved and a judge job enqueued, then the status is set
to `completed`; on an exception from `run_dialogue`, the status is set to
`failed` with `turn_count = 0` and the error re-raised. -/
def process_run (scenarios : String → Option ScenarioData) (client : Client)
    (job : RunJob) (s : PipelineState) : PipelineState × Except String Nat :=
  match scenarios job.scenario_id with
  | none => (s, Except.error "Scenario not found")
  | some scen =>
    let s := create_run_item job s
    match run_dialogue client scen job.max_turns none with
    | Except.error e =>
      (update_run_status job.run_id "failed" 0 (some e) s, Except.error e)
    | Except.ok result =>
      let s := result.turns.foldl
        (fun st turn => enqueue_judge_job job.run_id turn.turn_index
          (save_turn job.run_id turn st)) s
      let s := update_run_status job.run_id "completed" result.turns.length none s
      (s, Except.ok result.turns.length)

/-! ### `lambdas/judge/handler.py` -/

/-- Number of persisted TURN#<idx> items for a run (`check_all_turns_judged`
counts items whose SK starts with `TURN#`; keys are unique). -/
def countTurnsFor (run_id : String) (s : PipelineState) : Nat :=
  (s.turnItems.filter fun p => decide (p.1.1 = run_id)).length

/-- Number of persisted JUDGE#<idx> items for a run. -/
def countJudgesFor (run_id : String) (s : PipelineState) : Nat :=
  (s.judgeItems.filter fun p => decide (p.1.1 = run_id)).length

/-- `judge/handler.py` lines 187-207 (`check_all_turns_judged`):
`turn_count > 0 and turn_count == judge_count`. -/
def check_all_turns_judged (run_id : String) (s : PipelineState) : Bool :=
  let turn_count := countTurnsFor run_id s
  let judge_count := countJudgesFor run_id s
  decide (0 < turn_count) && decide (turn_count = judge_count)

/-- `judge/handler.py` lines 210-232 (`emit_run_judged_event`). -/
def emit_run_judged_event (run_id : String) (s : PipelineState) : PipelineState :=
  { s with runJudgedEvents := s.runJudgedEvents ++ [run_id] }

/-- `judge/handler.py` lines 121-184 (`save_judge_result`): writes the judge
JSON to S3 and the JUDGE#<idx> item, keyed by (run_id, turn_index). -/
def save_judge_result (run_id : String) (turn_index : Nat)
    (heuristics : HeuristicScores) (judge_result : JudgeResult)
    (s : PipelineState) : PipelineState :=
  let item : JudgeItem :=
    { run_id := run_id
      turn_index := turn_index
      overall_score := judge_result.scores.overall
      has_question := heuristics.has_question
      is_open_ended := heuristics.is_open_ended }
  { s with judgeItems := putAt s.judgeItems (run_id, turn_index) item }

/-- `judge/handler.py` lines 61-108 (`judge_turn_job`).  Loads the turn
bundle (raising if absent), runs the heuristic and vector scorers on its
`ai` text with its `output_tokens`, saves the judge result, then emits the
`run.judged` event when `check_all_turns_judged` holds.  Returns whether the
completion event was emitted. -/
def judge_turn_job (job : String × Nat) (s : PipelineState) :
    PipelineState × Except String Bool :=
  match getAt s.turnItems job with
  | none => (s, Except.error "NoSuchKey")
  | some turn_bundle =>
    let heuristics := compute_heuristic_scores turn_bundle.ai
    let judge_result :=
      compute_vector_scores turn_bundle.ai (some turn_bundle.output_tokens) false 0
    let s := save_judge_result job.1 job.2 heuristics judge_result s
    if check_all_turns_judged job.1 s then
      (emit_run_judged_event job.1 s, Except.ok true)
    else
      (s, Except.ok false)

/-! ### `lambdas/curator/handler.py` -/

/-- Return shape of `compute_metrics` (`curator/handler.py` lines
202-211). -/
structure Metrics where
  turn_count : Nat
  overall_score : ℚ
  compliance_rate : ℚ
  half_life : Nat
  violation_rate : ℚ
  open_ended_rate : ℚ
  total_input_tokens : Nat
  total_output_tokens : Nat
deriving DecidableEq, Repr

/-- The `for judge in judges` loop of `compute_metrics`
(`curator/handler.py` lines 172-186): accumulates the score list, the
compliant count and the first turn_index whose score fell below the
compliance threshold 0.5. -/
def metricsStep (acc : List ℚ × Nat × Option Nat) (judge : JudgeItem) :
    List ℚ × Nat × Option Nat :=
  let scores := acc.1 ++ [judge.overall_score]
  if judge.overall_score ≥ (1/2 : ℚ) then (scores, acc.2.1 + 1, acc.2.2)
  else match acc.2.2 with
    | none => (scores, acc.2.1, some judge.turn_index)
    | some h => (scores, acc.2.1, some h)

def metricsLoop (judges : List JudgeItem) : List ℚ × Nat × Option Nat :=
  judges.foldl metricsStep ([], 0, none)

/-- `curator/handler.py` lines 161-211 (`compute_metrics`). -/
def compute_metrics (turns : List TurnItem) (judges : List JudgeItem) : Metrics :=
  let loopOut := metricsLoop judges
  let scores := loopOut.1
  let compliant_count := loopOut.2.1
  let half_life := loopOut.2.2
  let overall_score : ℚ := if scores.length ≠ 0 then scores.sum / scores.length else 0
  let compliance_rate : ℚ :=
    if scores.length ≠ 0 then (compliant_count : ℚ) / scores.length else 0
  let has_question_count := (judges.filter fun j => j.has_question).length
  let open_ended_count := (judges.filter fun j => j.is_open_ended).length
  let violation_rate : ℚ :=
    if judges.length ≠ 0 then 1 - (has_question_count : ℚ) / judges.length else 0
  let open_ended_rate : ℚ :=
    if judges.length ≠ 0 then (open_ended_count : ℚ) / judges.length else 0
  { turn_count := turns.length
    overall_score := pyRound2 overall_score
    compliance_rate := pyRound2 compliance_rate
    half_life := match half_life with | some h => h | none => turns.length
    violation_rate := pyRound2 violation_rate
    open_ended_rate := pyRound2 open_ended_rate
    total_input_tokens := (turns.map fun t => t.input_tokens).sum
    total_output_tokens := (turns.map fun t => t.output_tokens).sum }

/-- The first judge item (in list order) whose overall score falls below the
0.5 compliance threshold, if any — the specification's description of
`half_life_turn` made precise. -/
def firstBelow (judges : List JudgeItem) : Option Nat :=
  (judges.find? fun j => decide (j.overall_score < 1/2)).map
    fun j => j.turn_index

/-- The WEEK#<yyyy-Www>#MODEL#<id> aggregate item
(`curator/handler.py` lines 309-325). -/
structure WeeklyAggregate where
  week : String
  model_id : String
  run_count : Nat
  total_score : ℚ
  mean_score : ℚ
  total_compliance : ℚ
  mean_compliance : ℚ
deriving DecidableEq, Repr

/-- `curator/handler.py` lines 275-330 (`update_weekly_aggregate`), given the
ISO week computed from the run's `created_at` (the `strftime` call on the
external clock value) and the summary's `overall_score` and
`compliance_rate`.  Read-modify-write with no run_id deduplication and no
conditional write. -/
def update_weekly_aggregate (iso_week model_id : String)
    (overall_score compliance_rate : ℚ)
    (aggregates : List (String × WeeklyAggregate)) :
    List (String × WeeklyAggregate) :=
  let pk := "WEEK#" ++ iso_week ++ "#MODEL#" ++ model_id
  let existing := getAt aggregates pk
  let run_count := (match existing with | some a => a.run_count | none => 0) + 1
  let prev_total_score : ℚ := match existing with | some a => a.total_score | none => 0
  let new_total_score := prev_total_score + overall_score
  let mean_score := new_total_score / run_count
  let prev_total_compliance : ℚ :=
    match existing with | some a => a.total_compliance | none => 0
  let new_total_compliance := prev_total_compliance + compliance_rate
  let mean_compliance := new_total_compliance / run_count
  let item : WeeklyAggregate :=
    { week := iso_week
      model_id := model_id
      run_count := run_count
      total_score := new_total_score
      mean_score := pyRound2 mean_score
      total_compliance := new_total_compliance
      mean_compliance := pyRound2 mean_compliance }
  putAt aggregates pk item

/-! ### `lambdas/planner/handler.py`

The SHA-256 content hash (`hashlib`) and the current date (`datetime.now`)
are external; they enter as the `contentHash` function and the `date_str`
argument.  The random ULID run-id generator is modelled as a counter-based
fresh-name supply, matching its one relevant property (each generated id is
new). -/

/-- One entry of `config["models"]`. -/
structure ModelEntry where
  model_id : String
  name : Option String
deriving DecidableEq, Repr

/-- One entry of `config["scenarios"]` (as consumed by
`generate_run_jobs`, which reads `scenario["id"]`). -/
structure ScenarioEntry where
  id : String
  name : Option String
  max_turns : Option Nat
deriving DecidableEq, Repr

/-- `config["parameters"]`. -/
structure PlannerParams where
  temperature : Option ℚ
  max_tokens : Option Nat
  max_turns : Option Nat
  judge_model : Option String
deriving DecidableEq, Repr

/-- The planner configuration document. -/
structure PlannerConfig where
  models : List ModelEntry
  scenarios : List ScenarioEntry
  parameters : PlannerParams
deriving DecidableEq, Repr

/-- The durable state touched by the Planner: manifest ids present in the
store, the dialogue-jobs queue, and the fresh run-id supply. -/
structure PlannerState where
  manifests : List String
  queue : List RunJob
  nextRunId : Nat
deriving DecidableEq, Repr

def PlannerState.empty : PlannerState :=
  { manifests := [], queue := [], nextRunId := 0 }

/-- `planner/handler.py` lines 125-137 (`generate_manifest_id`):
`M-<date>-<hash(canonical_json(config))[:12]>` with the hash supplied as the
external `contentHash` function. -/
def generate_manifest_id (contentHash : PlannerConfig → String)
    (date_str : String) (config : PlannerConfig) : String :=
  "M-" ++ date_str ++ "-" ++ contentHash config

/-- `planner/handler.py` lines 150-187 (`save_manifest`): skips the write
when the manifest id already exists, otherwise records it. -/
def save_manifest (manifest_id : String) (s : PlannerState) : PlannerState :=
  if manifest_id ∈ s.manifests then s
  else { s with manifests := manifest_id :: s.manifests }

/-- `model_id.split(".")[0] if "." in model_id else "unknown"`
(`planner/handler.py` line 205). -/
def providerOf (model_id : String) : String :=
  if model_id.data.contains '.' then (model_id.splitOn ".").headD model_id
  else "unknown"

/-- `planner/handler.py` lines 190-223 (`generate_run_jobs`): one job per
(model, scenario) pair, each with a fresh run id.  Returns the job list and
the advanced id supply. -/
def generate_run_jobs (manifest_id : String) (config : PlannerConfig)
    (nextRunId : Nat) : List RunJob × Nat :=
  config.models.foldl
    (fun (acc : List RunJob × Nat) model =>
      config.scenarios.foldl
        (fun (acc2 : List RunJob × Nat) scen =>
          let run_id := "ULID-" ++ toString acc2.2
          let job : RunJob :=
            { run_id := run_id
              manifest_id := manifest_id
              model_id := model.model_id
              model_name := match model.name with
                | some n => n
                | none => model.model_id
              provider := providerOf model.model_id
              temperature := match config.parameters.temperature with
                | some t => t
                | none => 7/10
              max_tokens := match config.parameters.max_tokens with
                | some m => m
                | none => 500
              scenario_id := scen.id
              scenario_name := match scen.name with
                | some n => n
                | none => scen.id
              max_turns := match scen.max_turns with
                | some m => m
                | none => 5 }
          (acc2.1 ++ [job], acc2.2 + 1))
        acc)
    ([], nextRunId)

/-- `planner/handler.py` lines 226-276 (`enqueue_jobs`): sends every job to
the dialogue queue (delivery failures are not modelled), returning the
enqueued count. -/
def enqueue_jobs (jobs : List RunJob) (s : PlannerState) : PlannerState × Nat :=
  ({ s with queue := s.queue ++ jobs }, jobs.length)

/-- Return shape of the Planner handler. -/
structure PlannerOutput where
  manifest_id : String
  total_jobs : Nat
  enqueued : Nat
deriving DecidableEq, Repr

/-- `planner/handler.py` lines 35-69 (`lambda_handler`), for a given loaded
config: computes the manifest id, saves the manifest (skipping an existing
one), and then always generates and enqueues the full job matrix. -/
def lambda_handler (contentHash : PlannerConfig → String) (date_str : String)
    (config : PlannerConfig) (s : PlannerState) : PlannerOutput × PlannerState :=
  let manifest_id := generate_manifest_id contentHash date_str config
  let s := save_manifest manifest_id s
  let jobsOut := generate_run_jobs manifest_id config s.nextRunId
  let s := { s with nextRunId := jobsOut.2 }
  let enqOut := enqueue_jobs jobsOut.1 s
  ({ manifest_id := manifest_id
     total_jobs := jobsOut.1.length
     enqueued := enqOut.2 }, enqOut.1)

/-! ### Store lemmas -/

theorem getAt_putAt_self {K V : Type} [DecidableEq K] (m : List (K × V))
    (k : K) (v : V) : getAt (putAt m k v) k = some v := by
  simp [getAt, putAt]

theorem getAt_putAt_ne {K V : Type} [DecidableEq K] (m : List (K × V))
    (k k' : K) (v : V) (h : k' ≠ k) :
    getAt (putAt m k v) k' = getAt m k' := by
  have hfun : (fun (p : K × V) => !decide (p.1 = k) && decide (p.1 = k')) =
      fun p => decide (p.1 = k') := by
    funext p
    by_cases hp : p.1 = k'
    · rw [hp]; simp [h]
    · simp [hp]
  have hkk : ¬ (k = k') := fun hh => h hh.symm
  simp [getAt, putAt, hkk, hfun]

/-! ### Claim C9 -/

theorem cvs_verbosity_eq (text : String) (tc : Nat) (u : Bool) (llm : ℚ) :
    (compute_vector_scores text (some tc) u llm).scores.verbosity =
      pyRound2 (verbosityScore tc) := rfl

/-- C9: the verbosity component of `compute_vector_scores` satisfies the
boundary values: token_count = 50 yields 1.0, token_count = 10 yields 0.2,
and token_count = 350 yields 0.0. -/
theorem C9_verbosity_boundary :
    verbosityScore 50 = 1 ∧ verbosityScore 10 = 1/5 ∧ verbosityScore 350 = 0 ∧
    ∀ text llm,
      (compute_vector_scores text (some 50) false llm).scores.verbosity = 1 ∧
      (compute_vector_scores text (some 10) false llm).scores.verbosity = 1/5 ∧
      (compute_vector_scores text (some 350) false llm).scores.verbosity = 0 := by
  have h50 : verbosityScore 50 = 1 := by norm_num [verbosityScore]
  have h10 : verbosityScore 10 = 1/5 := by norm_num [verbosityScore]
  have h350 : verbosityScore 350 = 0 := by norm_num [verbosityScore]
  refine ⟨h50, h10, h350, fun text llm => ⟨?_, ?_, ?_⟩⟩ <;>
    rw [cvs_verbosity_eq] <;>
    simp [h50, h10, h350] <;>
    norm_num [pyRound2, pyRoundHalfEven]

/-! ### Claim C10 -/

/-- C10 counterexample: with open-ended questions the interrogative score is
0.9 at two questions, 0.8 at three, but stays flat at 0.7 for four and five
questions — the penalty is not proportional to the count beyond one once the
floor is reached. -/
theorem C10_counterexample :
    interrogativeScore 2 true = 9/10 ∧ interrogativeScore 3 true = 8/10 ∧
    interrogativeScore 4 true = 7/10 ∧ interrogativeScore 5 true = 7/10 := by
  refine ⟨?_, ?_, ?_, ?_⟩ <;> norm_num [interrogativeScore, max_def]

/-- C10 (amended): exactly one open-ended question yields 1.0, exactly one
closed question yields 0.5, zero questions yield 0.0, and multiple questions
are penalized 0.1 per question beyond one down to a floor — 0.7 for
open-ended, 0.3 for closed. -/
theorem C10_interrogative_table :
    interrogativeScore 1 true = 1 ∧ interrogativeScore 1 false = 1/2 ∧
    (∀ b, interrogativeScore 0 b = 0) ∧
    (∀ qc, 2 ≤ qc →
      interrogativeScore qc true = max (7/10) (1 - ((qc : ℚ) - 1) * (1/10)) ∧
      interrogativeScore qc false = max (3/10) (1/2 - ((qc : ℚ) - 1) * (1/10))) := by
  refine ⟨by norm_num [interrogativeScore], by norm_num [interrogativeScore],
    fun b => by norm_num [interrogativeScore], fun qc hqc => ⟨?_, ?_⟩⟩ <;>
  · have h0 : qc ≠ 0 := by omega
    have h1 : qc ≠ 1 := by omega
    simp [interrogativeScore, h0, h1, hqc]

theorem C10_interrogative_table_witness :
    (2 ≤ 3) ∧
    interrogativeScore 3 true = max (7/10) (1 - ((3 : ℚ) - 1) * (1/10)) ∧
    interrogativeScore 3 false = max (3/10) (1/2 - ((3 : ℚ) - 1) * (1/10)) :=
  ⟨by norm_num, (C10_interrogative_table.2.2.2 3 (by norm_num)).1,
    (C10_interrogative_table.2.2.2 3 (by norm_num)).2⟩

/-! ### Claim C8 -/

theorem metricsFold_some (judges : List JudgeItem) :
    ∀ s0 c0 h, (judges.foldl metricsStep (s0, c0, some h)).2.2 = some h := by
  induction judges with
  | nil => intro s0 c0 h; rfl
  | cons j t ih =>
    intro s0 c0 h
    show (t.foldl metricsStep (metricsStep (s0, c0, some h) j)).2.2 = some h
    by_cases hs : j.overall_score ≥ (1/2 : ℚ)
    · have hstep : metricsStep (s0, c0, some h) j =
          (s0 ++ [j.overall_score], c0 + 1, some h) := by
        simp only [metricsStep]
        rw [if_pos hs]
      rw [hstep]
      exact ih _ _ _
    · have hstep : metricsStep (s0, c0, some h) j =
          (s0 ++ [j.overall_score], c0, some h) := by
        simp only [metricsStep]
        rw [if_neg hs]
      rw [hstep]
      exact ih _ _ _

theorem metricsFold_none (judges : List JudgeItem) :
    ∀ s0 c0, (judges.foldl metricsStep (s0, c0, none)).2.2 = firstBelow judges := by
  induction judges with
  | nil => intro s0 c0; rfl
  | cons j t ih =>
    intro s0 c0
    show (t.foldl metricsStep (metricsStep (s0, c0, none) j)).2.2 = firstBelow (j :: t)
    by_cases hs : j.overall_score ≥ (1/2 : ℚ)
    · have hstep : metricsStep (s0, c0, none) j =
          (s0 ++ [j.overall_score], c0 + 1, none) := by
        simp only [metricsStep]
        rw [if_pos hs]
      have hd : (decide (j.overall_score < 1/2)) = false :=
        decide_eq_false (not_lt.mpr hs)
      have hfb : firstBelow (j :: t) = firstBelow t := by
        simp only [firstBelow, List.find?_cons, hd]
      rw [hstep, hfb]
      exact ih _ _
    · have hlt : j.overall_score < 1/2 := lt_of_not_ge hs
      have hstep : metricsStep (s0, c0, none) j =
          (s0 ++ [j.overall_score], c0, some j.turn_index) := by
        simp only [metricsStep]
        rw [if_neg hs]
      have hd : (decide (j.overall_score < 1/2)) = true := decide_eq_true hlt
      have hfb : firstBelow (j :: t) = some j.turn_index := by
        simp only [firstBelow, List.find?_cons, hd]
        rfl
      rw [hstep, hfb]
      exact metricsFold_some t _ _ _

def c8Turn : TurnItem :=
  { run_id := "r1", turn_index := 0, student := "s", ai := "a",
    latency_ms := 0, input_tokens := 1, output_tokens := 1 }

def c8Judge : JudgeItem :=
  { run_id := "r1", turn_index := 0, overall_score := 4/5,
    has_question := true, is_open_ended := true }

/-- C8 counterexample: one judged turn scoring 0.8 — at or above the 0.5
compliance threshold, so no turn ever falls below it (the loop's first-below
marker stays `none`) — yet `compute_metrics` reports `half_life = 1`, the
turn count, not null. -/
theorem C8_counterexample :
    (metricsLoop [c8Judge]).2.2 = none ∧
    ((4/5 : ℚ) ≥ 1/2) ∧
    (compute_metrics [c8Turn] [c8Judge]).half_life = 1 := by
  have hov : c8Judge.overall_score = 4/5 := rfl
  have h : c8Judge.overall_score ≥ (1/2 : ℚ) := by rw [hov]; norm_num
  have hstep : metricsStep ([], 0, none) c8Judge = ([c8Judge.overall_score], 1, none) := by
    simp only [metricsStep]
    rw [if_pos h]
    simp
  have hloop : (metricsLoop [c8Judge]).2.2 = none := by
    show ((List.foldl metricsStep (metricsStep ([], 0, none) c8Judge) [])).2.2 = none
    rw [hstep]
    rfl
  refine ⟨hloop, by rw [hov] at h; exact h, ?_⟩
  have hx : (compute_metrics [c8Turn] [c8Judge]).half_life =
      match (metricsLoop [c8Judge]).2.2 with
      | some hl => hl
      | none => ([c8Turn] : List TurnItem).length := rfl
  rw [hx, hloop]
  rfl

/-- C8 (amended): in the Curator's metrics, `half_life` equals the
`turn_index` of the first judge item (in the order given, which the Curator
sorts by turn_index) whose overall score falls below the 0.5 compliance
threshold, and equals the turn count — not null — when no turn ever falls
below the threshold. -/
theorem C8_half_life_eq :
    ∀ (turns : List TurnItem) (judges : List JudgeItem),
      (compute_metrics turns judges).half_life =
        (firstBelow judges).getD turns.length := by
  intro turns judges
  have hx : (compute_metrics turns judges).half_life =
      match (metricsLoop judges).2.2 with
      | some h => h
      | none => turns.length := rfl
  rw [hx, show (metricsLoop judges).2.2 = firstBelow judges from
    metricsFold_none judges [] 0]
  cases firstBelow judges <;> simp

/-! ### Claim C3 -/

/-- C3: `update_weekly_aggregate` has no run_id deduplication — folding the
same summary (overall score 0.8, compliance 1.0) twice into an empty
aggregate store leaves `run_count = 2` and `total_score = 1.6`, not the
claimed unchanged `(1, 0.8)` after the first fold. -/
theorem C3_double_fold_double_counts :
    ((getAt (update_weekly_aggregate "2026-W15" "model-a" (4/5) 1 [])
        "WEEK#2026-W15#MODEL#model-a").map fun a => (a.run_count, a.total_score))
      = some (1, 4/5) ∧
    ((getAt (update_weekly_aggregate "2026-W15" "model-a" (4/5) 1
        (update_weekly_aggregate "2026-W15" "model-a" (4/5) 1 []))
        "WEEK#2026-W15#MODEL#model-a").map fun a => (a.run_count, a.total_score))
      = some (2, 8/5) := by
  have hpk : "WEEK#" ++ "2026-W15" ++ "#MODEL#" ++ "model-a" =
      "WEEK#2026-W15#MODEL#model-a" := rfl
  constructor <;>
    norm_num [update_weekly_aggregate, hpk, getAt, putAt]

/-! ### Claim C1 -/

/-- Stands in for `sha256(canonical_json(config))[:12]` (external `hashlib`);
its value is irrelevant to the enqueue behaviour. -/
def c1Hash : PlannerConfig → String := fun _ => "abc123def456"

def c1Config : PlannerConfig :=
  { models := [{ model_id := "anthropic.claude-v1", name := none }]
    scenarios := [{ id := "SCEN-01", name := none, max_turns := none }]
    parameters :=
      { temperature := none, max_tokens := none, max_turns := none,
        judge_model := none } }

def c1Run1 : PlannerOutput × PlannerState :=
  lambda_handler c1Hash "20261012" c1Config PlannerState.empty

def c1Run2 : PlannerOutput × PlannerState :=
  lambda_handler c1Hash "20261012" c1Config c1Run1.2

/-- C1: calling the Planner handler twice with the identical 1-model ×
1-scenario config on the same day yields the same manifest_id and leaves a
single stored manifest, but the second call does NOT return immediately: it
generates a fresh run job and enqueues it again, growing the dialogue queue
from 1 to 2 messages. -/
theorem C1_second_call_reenqueues :
    c1Run1.1.manifest_id = c1Run2.1.manifest_id ∧
    c1Run1.2.manifests = ["M-20261012-abc123def456"] ∧
    c1Run2.2.manifests = ["M-20261012-abc123def456"] ∧
    c1Run1.2.queue.length = 1 ∧
    c1Run2.2.queue.length = 2 ∧
    c1Run2.1.enqueued = 1 := by
  decide

/-! ### Claim C4 -/

theorem countTurnsFor_emit (r r' : String) (s : PipelineState) :
    countTurnsFor r (emit_run_judged_event r' s) = countTurnsFor r s := rfl

theorem countJudgesFor_emit (r r' : String) (s : PipelineState) :
    countJudgesFor r (emit_run_judged_event r' s) = countJudgesFor r s := rfl

/-- C4: the Judge Worker emits the run-scored completion event iff, after
writing the current ScoreResult, the number of persisted JUDGE items equals
the number of persisted TURN items for that run and that number is nonzero;
in particular, with N ≥ 1 turns it never fires when only N-1 judge results
exist. -/
theorem C4_completion_quorum :
    ∀ (job : String × Nat) (s s' : PipelineState) (emitted : Bool),
      judge_turn_job job s = (s', Except.ok emitted) →
      ((emitted = true ↔
        (countTurnsFor job.1 s' = countJudgesFor job.1 s' ∧
          0 < countTurnsFor job.1 s')) ∧
       ∀ N, 1 ≤ N → countTurnsFor job.1 s' = N →
         countJudgesFor job.1 s' = N - 1 → emitted = false) := by
  intro job s s' emitted h
  unfold judge_turn_job at h
  cases hb : getAt s.turnItems job with
  | none => rw [hb] at h; simp at h
  | some bundle =>
    rw [hb] at h
    simp only at h
    set s1 := save_judge_result job.1 job.2 (compute_heuristic_scores bundle.ai)
      (compute_vector_scores bundle.ai (some bundle.output_tokens) false 0) s with hs1
    by_cases hchk : check_all_turns_judged job.1 s1 = true
    · rw [if_pos hchk] at h
      obtain ⟨hs', he⟩ := Prod.mk.injEq .. ▸ h
      replace he : emitted = true := by
        cases he' : emitted
        · rw [he'] at he; simp at he
        · rfl
      subst hs'
      have hcounts : countTurnsFor job.1 (emit_run_judged_event job.1 s1) =
          countTurnsFor job.1 s1 := rfl
      have hcounts' : countJudgesFor job.1 (emit_run_judged_event job.1 s1) =
          countJudgesFor job.1 s1 := rfl
      simp only [check_all_turns_judged, Bool.and_eq_true, decide_eq_true_eq] at hchk
      refine ⟨?_, ?_⟩
      · rw [he]
        simp [hcounts, hcounts', hchk.2.symm ▸ hchk.1, hchk.2]
      · intro N hN h1 h2
        rw [hcounts] at h1
        rw [hcounts'] at h2
        rw [hchk.2] at h1
        omega
    · rw [if_neg hchk] at h
      obtain ⟨hs', he⟩ := Prod.mk.injEq .. ▸ h
      replace he : emitted = false := by
        cases he' : emitted
        · rfl
        · rw [he'] at he; simp at he
      subst hs'
      simp only [check_all_turns_judged, Bool.and_eq_true, decide_eq_true_eq,
        not_and] at hchk
      refine ⟨?_, fun N hN h1 h2 => he⟩
      rw [he]
      constructor
      · intro hft
        simp at hft
      · rintro ⟨heq, hpos⟩
        exact absurd heq (hchk hpos)

def c4Turn : TurnItem :=
  { run_id := "r1", turn_index := 0, student := "s",
    ai := "What might follow from that?", latency_ms := 0,
    input_tokens := 5, output_tokens := 6 }

def c4State : PipelineState :=
  { runMetas := [], turnItems := [(("r1", 0), c4Turn)], judgeItems := [],
    judgeQueue := [], runJudgedEvents := [] }

def c4StateOut : PipelineState := (judge_turn_job ("r1", 0) c4State).1

theorem C4_completion_quorum_witness :
    (true = true ↔
      (countTurnsFor "r1" c4StateOut = countJudgesFor "r1" c4StateOut ∧
        0 < countTurnsFor "r1" c4StateOut)) :=
  (C4_completion_quorum ("r1", 0) c4State c4StateOut true rfl).1

/-! ### Claim C5 -/

/-- C5: whenever `run_dialogue` is called with
`simulated_student_responses = None` — the only way the serverless Runner
invokes it — and returns a result, that result has exactly one turn, for any
`max_turns ≥ 1`: the loop breaks after the first AI response because no
further student utterance is available. -/
theorem C5_single_turn :
    ∀ (client : Client) (scen : ScenarioData) (max_turns : Nat)
      (res : DialogueResult),
      1 ≤ max_turns →
      run_dialogue client scen max_turns none = Except.ok res →
      res.turns.length = 1 := by
  intro client scen max_turns res hmax h
  obtain ⟨n, rfl⟩ : ∃ n, max_turns = n + 1 := ⟨max_turns - 1, by omega⟩
  rw [run_dialogue, dialogueLoop] at h
  cases hc : client 0 with
  | none => rw [hc] at h; simp [Except.map] at h
  | some resp =>
    rw [hc] at h
    simp only [Except.map] at h
    obtain rfl := (Except.ok.injEq .. ▸ h).symm
    rfl

def c5Client : Client := fun _ =>
  some { text := "Why?", latency_ms := 0, input_tokens := 1, output_tokens := 1 }

def c5Scen : ScenarioData :=
  { id := "S1", vector := "elenchus", persona := "novice",
    prompt := "All swans are white." }

def c5Result : DialogueResult :=
  { scen := c5Scen
    turns := [{ turn_index := 0, student_utterance := "All swans are white.",
                ai_response := "Why?", latency_ms := 0, input_tokens := 1,
                output_tokens := 1 }] }

theorem C5_single_turn_witness :
    (1 ≤ 3) ∧ c5Result.turns.length = 1 :=
  ⟨by decide, C5_single_turn c5Client c5Scen 3 c5Result (by decide) rfl⟩

/-! ### Claim C2 -/

theorem dialogueLoop_indices (client : Client) (sim : Option (List String)) :
    ∀ (remaining turn_idx : Nat) (student : String)
      (acc out : List DialogueTurn),
      (acc.map fun t => t.turn_index) = List.range turn_idx →
      dialogueLoop client sim remaining turn_idx student acc = Except.ok out →
      (out.map fun t => t.turn_index) = List.range out.length := by
  intro remaining
  induction remaining with
  | zero =>
    intro turn_idx student acc out hacc h
    simp only [dialogueLoop, Except.ok.injEq] at h
    subst h
    have hlen := congrArg List.length hacc
    simp only [List.length_map, List.length_range] at hlen
    rw [hacc, hlen]
  | succ n ih =>
    intro turn_idx student acc out hacc h
    rw [dialogueLoop] at h
    cases hc : client turn_idx with
    | none => rw [hc] at h; simp at h
    | some resp =>
      rw [hc] at h
      simp only [] at h
      have hlenacc : acc.length = turn_idx := by
        have := congrArg List.length hacc
        simpa using this
      have happ : ∀ tn : DialogueTurn, tn.turn_index = turn_idx →
          ((acc ++ [tn]).map fun t => t.turn_index) = List.range (turn_idx + 1) := by
        intro tn htn
        simp [hacc, htn, List.range_succ]
      cases sim with
      | none =>
        simp only [Except.ok.injEq] at h
        subst h
        rw [happ _ rfl]
        simp [hlenacc]
      | some resps =>
        simp only [] at h
        by_cases hlt : turn_idx < resps.length
        · rw [if_pos hlt] at h
          exact ih _ _ _ _ (happ _ rfl) h
        · rw [if_neg hlt] at h
          simp only [Except.ok.injEq] at h
          subst h
          rw [happ _ rfl]
          simp [hlenacc]

theorem foldl_save_turn_mem (rid : String) (ts : List DialogueTurn) :
    ∀ (st : PipelineState) (i : Nat),
      ((getAt ((ts.foldl (fun st turn => enqueue_judge_job rid turn.turn_index
          (save_turn rid turn st)) st).turnItems) (rid, i)).isSome = true ↔
        ((i ∈ ts.map fun t => t.turn_index) ∨
          (getAt st.turnItems (rid, i)).isSome = true)) := by
  induction ts with
  | nil => intro st i; simp
  | cons t rest ih =>
    intro st i
    rw [List.foldl_cons, ih]
    have henq : (enqueue_judge_job rid t.turn_index (save_turn rid t st)).turnItems =
        (save_turn rid t st).turnItems := rfl
    rw [henq]
    simp only [save_turn]
    by_cases hi : i = t.turn_index
    · subst hi
      rw [getAt_putAt_self]
      simp
    · have hne : ((rid, i) : String × Nat) ≠ (rid, t.turn_index) := by
        simp [hi]
      rw [getAt_putAt_ne _ _ _ _ hne]
      simp [hi]

def c2Scen : ScenarioData :=
  { id := "SCEN-01", vector := "elenchus", persona := "student",
    prompt := "I believe X." }

def c2Lookup : String → Option ScenarioData := fun sid =>
  if sid = "SCEN-01" then some c2Scen else none

def c2Client : Client := fun _ =>
  some { text := "Why?", latency_ms := 0, input_tokens := 1, output_tokens := 1 }

def c2Job : RunJob :=
  { run_id := "r1", manifest_id := "m1", model_id := "anthropic.claude",
    model_name := "claude", provider := "anthropic", temperature := 0,
    max_tokens := 200, scenario_id := "SCEN-01", scenario_name := "SCEN-01",
    max_turns := 3 }

def c2Out : PipelineState :=
  (process_run c2Lookup c2Client c2Job PipelineState.empty).1

/-- C2 counterexample: a run completed with turn_count = 1 persists its
single turn under turn_index 0, not 1 — there is a TURN item at index 0 and
none at index 1, so the persisted indices are not `1..turn_count`. -/
theorem C2_counterexample :
    (process_run c2Lookup c2Client c2Job PipelineState.empty).2 = Except.ok 1 ∧
    ((getAt c2Out.runMetas "r1").map fun m => (m.status, m.turn_count)) =
      some ("completed", some 1) ∧
    (getAt c2Out.turnItems ("r1", 0)).isSome = true ∧
    getAt c2Out.turnItems ("r1", 1) = none :=
  ⟨rfl, rfl, rfl, rfl⟩

/-- C2 (amended): the i-th turn produced by the Dialogue Engine carries
`turn_index = i - 1` counting from 1: for every successful `run_dialogue`
the turn_index values are exactly `0, 1, ..., turn_count - 1`, strictly
increasing and contiguous from 0; and after the Runner completes a run
against a store holding no prior TURN items for that run_id, the persisted
turn_index values are exactly `0..turn_count-1` (an item exists at index i
iff `i < turn_count`) with the run marked completed. -/
theorem C2_turn_indices :
    (∀ (client : Client) (sim : Option (List String)) (scen : ScenarioData)
       (max_turns : Nat) (res : DialogueResult),
       run_dialogue client scen max_turns sim = Except.ok res →
       (res.turns.map fun t => t.turn_index) = List.range res.turns.length) ∧
    (∀ (lookup : String → Option ScenarioData) (client : Client) (job : RunJob)
       (s s' : PipelineState) (n : Nat),
       (∀ i, getAt s.turnItems (job.run_id, i) = none) →
       process_run lookup client job s = (s', Except.ok n) →
       ((getAt s'.runMetas job.run_id).map fun m => (m.status, m.turn_count)) =
           some ("completed", some n) ∧
         ∀ i, (getAt s'.turnItems (job.run_id, i)).isSome = true ↔ i < n) := by
  have hdlg : ∀ (client : Client) (sim : Option (List String))
      (scen : ScenarioData) (max_turns : Nat) (res : DialogueResult),
      run_dialogue client scen max_turns sim = Except.ok res →
      (res.turns.map fun t => t.turn_index) = List.range res.turns.length := by
    intro client sim scen max_turns res h
    unfold run_dialogue at h
    cases hd : dialogueLoop client sim max_turns 0 scen.prompt [] with
    | error e => rw [hd] at h; simp [Except.map] at h
    | ok ts =>
      rw [hd] at h
      simp only [Except.map, Except.ok.injEq] at h
      subst h
      exact dialogueLoop_indices client sim max_turns 0 scen.prompt [] ts rfl hd
  refine ⟨hdlg, ?_⟩
  intro lookup client job s s' n hnone h
  unfold process_run at h
  cases hlk : lookup job.scenario_id with
  | none => rw [hlk] at h; simp at h
  | some scen =>
    rw [hlk] at h
    dsimp only at h
    cases hrd : run_dialogue client scen job.max_turns none with
    | error e => rw [hrd] at h; simp at h
    | ok result =>
      rw [hrd] at h
      simp only [Prod.mk.injEq, Except.ok.injEq] at h
      obtain ⟨hs', hn⟩ := h
      subst hs'
      subst hn
      constructor
      · simp only [update_run_status]
        rw [getAt_putAt_self]
        cases hgm : getAt (result.turns.foldl
            (fun st turn => enqueue_judge_job job.run_id turn.turn_index
              (save_turn job.run_id turn st)) (create_run_item job s)).runMetas
            job.run_id <;> simp [hgm]
      · intro i
        have hti : (update_run_status job.run_id "completed" result.turns.length
            none (result.turns.foldl
              (fun st turn => enqueue_judge_job job.run_id turn.turn_index
                (save_turn job.run_id turn st)) (create_run_item job s))).turnItems =
            (result.turns.foldl
              (fun st turn => enqueue_judge_job job.run_id turn.turn_index
                (save_turn job.run_id turn st)) (create_run_item job s)).turnItems := rfl
        rw [hti, foldl_save_turn_mem]
        have hcr : (create_run_item job s).turnItems = s.turnItems := rfl
        rw [hcr]
        have hidx := hdlg client none scen job.max_turns result hrd
        rw [hidx]
        simp [hnone i, List.mem_range]

theorem C2_turn_indices_witness :
    ((getAt c2Out.runMetas "r1").map fun m => (m.status, m.turn_count)) =
        some ("completed", some 1) ∧
    ((getAt c2Out.turnItems ("r1", 0)).isSome = true ↔ 0 < 1) ∧
    ((getAt c2Out.turnItems ("r1", 1)).isSome = true ↔ 1 < 1) := by
  have h := C2_turn_indices.2 c2Lookup c2Client c2Job PipelineState.empty
    c2Out 1 (fun i => rfl) rfl
  exact ⟨h.1, h.2 0, h.2 1⟩

/-! ### Claim C6 -/

/-- Succeeds on the first inference call, then fails (retries exhausted) on
the second. -/
def c6PartClient : Client := fun n =>
  if n = 0 then
    some { text := "Why?", latency_ms := 0, input_tokens := 1, output_tokens := 1 }
  else none

/-- Fails on every inference call (retries exhausted immediately). -/
def c6FailClient : Client := fun _ => none

/-- C6 counterexample: (i) with a scripted student response, the client
succeeding once and then failing makes `run_dialogue` return a bare error —
the partial first turn is discarded with the exception, not returned to the
caller (the same client under `max_turns = 1` shows that a valid first turn
had been produced); and (ii) in the Runner, an inference failure leaves zero
persisted turns and marks the run failed with `turn_count = 0` before
re-raising. -/
theorem C6_counterexample :
    run_dialogue c6PartClient c5Scen 3 (some ["Because it seems right."]) =
      Except.error "inference retries exhausted" ∧
    (run_dialogue c6PartClient c5Scen 1
        (some ["Because it seems right."])).map (fun r => r.turns.length) =
      Except.ok 1 ∧
    (process_run c2Lookup c6FailClient c2Job PipelineState.empty).1.turnItems = [] ∧
    ((getAt (process_run c2Lookup c6FailClient c2Job
        PipelineState.empty).1.runMetas "r1").map
        fun m => (m.status, m.turn_count, m.error)) =
      some ("failed", some 0, some "inference retries exhausted") ∧
    (process_run c2Lookup c6FailClient c2Job PipelineState.empty).2 =
      Except.error "inference retries exhausted" :=
  ⟨rfl, rfl, rfl, rfl, rfl⟩

/-- C6 (amended): when the inference client fails after its retries are
exhausted, the failure propagates as a hard failure of the run — the Runner
marks the run `failed` with `turn_count = 0` and the error message, and
re-raises — but the partial turns produced before the failure are discarded
with the exception: the store's TURN items are exactly what they were
before, nothing is persisted.  (In the serverless Runner path, which passes
no simulated student responses, the failure can only happen on the first
call, so no partial turns exist to lose.) -/
theorem C6_failure_persistence :
    ∀ (lookup : String → Option ScenarioData) (client : Client) (job : RunJob)
      (s : PipelineState) (scen : ScenarioData) (e : String),
      lookup job.scenario_id = some scen →
      run_dialogue client scen job.max_turns none = Except.error e →
      (process_run lookup client job s).2 = Except.error e ∧
      (process_run lookup client job s).1.turnItems = s.turnItems ∧
      ((getAt (process_run lookup client job s).1.runMetas job.run_id).map
        fun m => (m.status, m.turn_count, m.error)) =
        some ("failed", some 0, some e) := by
  intro lookup client job s scen e hlk hrd
  unfold process_run
  rw [hlk]
  simp only []
  rw [hrd]
  refine ⟨rfl, rfl, ?_⟩
  simp only [update_run_status]
  rw [getAt_putAt_self]
  cases hgm : getAt (create_run_item job s).runMetas job.run_id <;> simp [hgm]

theorem C6_failure_persistence_witness :
    (process_run c2Lookup c6FailClient c2Job PipelineState.empty).2 =
      Except.error "inference retries exhausted" ∧
    (process_run c2Lookup c6FailClient c2Job PipelineState.empty).1.turnItems =
      PipelineState.empty.turnItems ∧
    ((getAt (process_run c2Lookup c6FailClient c2Job
        PipelineState.empty).1.runMetas "r1").map
        fun m => (m.status, m.turn_count, m.error)) =
      some ("failed", some 0, some "inference retries exhausted") :=
  C6_failure_persistence c2Lookup c6FailClient c2Job PipelineState.empty
    c2Scen "inference retries exhausted" rfl rfl

/-! ### Claim C7 -/

/-- C7 counterexample: after a run completes (status `"completed"`),
re-running `create_run_item` for a redelivered job of the same run_id — the
first thing `process_run` does — overwrites the terminal status back to
`"running"`: terminal states are not absorbing. -/
theorem C7_counterexample :
    ((getAt (process_run c2Lookup c2Client c2Job
        PipelineState.empty).1.runMetas "r1").map RunMeta.status =
      some "completed") ∧
    ((getAt (create_run_item c2Job (process_run c2Lookup c2Client c2Job
        PipelineState.empty).1).runMetas "r1").map RunMeta.status =
      some "running") :=
  ⟨rfl, rfl⟩

/-- C7 (amended): run status is not monotonic under redelivery — the
Runner's writes are unconditional.  `create_run_item` always sets the status
to `"running"`, whatever status (including a terminal one) was stored; and
each single processing ends with exactly one terminal transition:
`process_run` leaves status `"completed"` on success and `"failed"` on an
error raised after the scenario lookup succeeded. -/
theorem C7_status_writes :
    (∀ (job : RunJob) (s : PipelineState),
      (getAt (create_run_item job s).runMetas job.run_id).map RunMeta.status =
        some "running") ∧
    (∀ (lookup : String → Option ScenarioData) (client : Client) (job : RunJob)
       (s s' : PipelineState) (n : Nat),
       process_run lookup client job s = (s', Except.ok n) →
       (getAt s'.runMetas job.run_id).map RunMeta.status = some "completed") ∧
    (∀ (lookup : String → Option ScenarioData) (client : Client) (job : RunJob)
       (s s' : PipelineState) (e : String) (scen : ScenarioData),
       lookup job.scenario_id = some scen →
       process_run lookup client job s = (s', Except.error e) →
       (getAt s'.runMetas job.run_id).map RunMeta.status = some "failed") := by
  refine ⟨?_, ?_, ?_⟩
  · intro job s
    simp [create_run_item, getAt_putAt_self]
  · intro lookup client job s s' n h
    unfold process_run at h
    cases hlk : lookup job.scenario_id with
    | none => rw [hlk] at h; simp at h
    | some scen =>
      rw [hlk] at h
      simp only [] at h
      cases hrd : run_dialogue client scen job.max_turns none with
      | error e => rw [hrd] at h; simp at h
      | ok result =>
        rw [hrd] at h
        simp only [Prod.mk.injEq, Except.ok.injEq] at h
        obtain ⟨hs', -⟩ := h
        subst hs'
        simp only [update_run_status]
        rw [getAt_putAt_self]
        cases hgm : getAt (result.turns.foldl
            (fun st turn => enqueue_judge_job job.run_id turn.turn_index
              (save_turn job.run_id turn st)) (create_run_item job s)).runMetas
            job.run_id <;> simp [hgm]
  · intro lookup client job s s' e scen hlk h
    unfold process_run at h
    rw [hlk] at h
    simp only [] at h
    cases hrd : run_dialogue client scen job.max_turns none with
    | ok result => rw [hrd] at h; simp at h
    | error e2 =>
      rw [hrd] at h
      simp only [Prod.mk.injEq, Except.error.injEq] at h
      obtain ⟨hs', -⟩ := h
      subst hs'
      simp only [update_run_status]
      rw [getAt_putAt_self]
      cases hgm : getAt (create_run_item job s).runMetas job.run_id <;>
        simp [hgm]

theorem C7_status_writes_witness :
    ((getAt (create_run_item c2Job PipelineState.empty).runMetas "r1").map
        RunMeta.status = some "running") ∧
    ((getAt c2Out.runMetas "r1").map RunMeta.status = some "completed") ∧
    ((getAt (process_run c2Lookup c6FailClient c2Job
        PipelineState.empty).1.runMetas "r1").map RunMeta.status =
      some "failed") :=
  ⟨C7_status_writes.1 c2Job PipelineState.empty,
   C7_status_writes.2.1 c2Lookup c2Client c2Job PipelineState.empty c2Out 1 rfl,
   C7_status_writes.2.2 c2Lookup c6FailClient c2Job PipelineState.empty
     (process_run c2Lookup c6FailClient c2Job PipelineState.empty).1
     "inference retries exhausted" c2Scen rfl rfl⟩

end SocraticBench
